import Mathlib

/-!
Verification of the Axelar Projects & Transactions Status Overview dashboard.

The source is a single Streamlit page whose computational content is six
Snowflake SQL queries plus the chart/KPI rendering guards.  We embed each
query as a pure Lean function over an explicit warehouse state:

* `axelar.core.fact_transactions` is a `List Tx`;
* `axelar.core.fact_blocks` is a `List Block`;
* the join of `fact_msg_attributes`, `dim_labels` and `fact_transactions`
  is a `List Ev` of already-joined rows (the join itself adds nothing the
  claims depend on);
* `CURRENT_DATE` is an explicit `today : ℤ` parameter (dates are day numbers,
  timestamps are second numbers).

Snowflake `ROUND` rounds half away from zero; integer division in SQL is
exact decimal division, so we model the quotients as exact rationals (for
`ROUND(q, 2)`) or as `roundDiv` on naturals (for the nonnegative
throughput quotients).  Snowflake raises a division-by-zero error on `0/0`,
hence `load_chain_summary` returns `Except`.
-/

namespace AxelarDash

/-- Snowflake `ROUND(n / m)` for a natural numerator and positive natural
denominator: round half away from zero of the exact quotient. -/
def roundDiv (n m : ℕ) : ℕ := (2 * n + m) / (2 * m)

/-- Snowflake `ROUND(q)`: round half away from zero on an exact rational. -/
def roundHalfAway (q : ℚ) : ℤ := if 0 ≤ q then ⌊q + 1/2⌋ else -⌊-q + 1/2⌋

/-- Snowflake `ROUND(q, 2)`. -/
def round2 (q : ℚ) : ℚ := (roundHalfAway (q * 100) : ℚ) / 100

/-- A row of `axelar.core.fact_transactions` (the columns the page reads). -/
structure Tx where
  tx_id : ℕ
  block_date : ℤ
  tx_from : ℕ
  fee : ℕ
  tx_succeeded : Bool
deriving DecidableEq

/-- The single result row of the chain-summary query. -/
structure SummaryRow where
  numTransactions : ℕ
  activityDays : ℕ
  numUsers : ℕ
  tph : ℕ
  tpm : ℕ
  tps : ℕ
  totalFee : ℚ
deriving DecidableEq

/-- `load_chain_summary`: single-row rollup over successful transactions.
`COUNT(DISTINCT tx_id)`, `COUNT(DISTINCT block_timestamp::date)`,
`COUNT(DISTINCT tx_from)`, `ROUND((txns/days)/24)`, `ROUND((txns/days)/24/60)`,
`ROUND((txns/days)/24/60/60)`, `ROUND(SUM(fee/1e6), 2)`.
When there are no successful transactions the division is `0/0`, which
Snowflake reports as a division-by-zero error. -/
def load_chain_summary (txs : List Tx) : Except String SummaryRow :=
  if (((txs.filter (·.tx_succeeded)).map (·.block_date)).dedup).length = 0 then
    Except.error "Division by zero"
  else
    Except.ok
      { numTransactions := (((txs.filter (·.tx_succeeded)).map (·.tx_id)).dedup).length
        activityDays := (((txs.filter (·.tx_succeeded)).map (·.block_date)).dedup).length
        numUsers := (((txs.filter (·.tx_succeeded)).map (·.tx_from)).dedup).length
        tph := roundDiv (((txs.filter (·.tx_succeeded)).map (·.tx_id)).dedup).length
          ((((txs.filter (·.tx_succeeded)).map (·.block_date)).dedup).length * 24)
        tpm := roundDiv (((txs.filter (·.tx_succeeded)).map (·.tx_id)).dedup).length
          ((((txs.filter (·.tx_succeeded)).map (·.block_date)).dedup).length * 24 * 60)
        tps := roundDiv (((txs.filter (·.tx_succeeded)).map (·.tx_id)).dedup).length
          ((((txs.filter (·.tx_succeeded)).map (·.block_date)).dedup).length * 24 * 60 * 60)
        totalFee := (roundDiv ((txs.filter (·.tx_succeeded)).map (·.fee)).sum 10000 : ℚ) / 100 }

/-- A row of `axelar.core.fact_blocks`. -/
structure Block where
  block_id : ℕ
  block_timestamp : ℤ
deriving DecidableEq

/-- The `ORDER BY block_id` traversal underlying the `LAG` window. -/
def orderBlocks (bs : List Block) : List Block :=
  List.insertionSort (fun a b => a.block_id ≤ b.block_id) bs

/-- `load_avg_block_time`: `LAG(block_timestamp) OVER (ORDER BY block_id)`,
keep rows whose predecessor exists: the per-block second deltas. -/
def blockDiffs (bs : List Block) : List ℤ :=
  List.zipWith (fun cur prev => cur - prev)
    ((orderBlocks bs).map (·.block_timestamp)).tail
    ((orderBlocks bs).map (·.block_timestamp))

/-- `load_avg_block_time`: average of the `LAG` deltas, `ROUND(_, 2)`.
`AVG` over an empty set is SQL `NULL`, modelled as `none`. -/
def load_avg_block_time (bs : List Block) : Option ℚ :=
  if (blockDiffs bs).length = 0 then none
  else some (round2 (((blockDiffs bs).sum : ℚ) / ((blockDiffs bs).length : ℚ)))

/-- `DATE_TRUNC(week, d)` on day numbers: the start of the 7-day bucket. -/
def weekOf (d : ℤ) : ℤ := d - d % 7

/-- A row of the weekly success/failure query. -/
structure TxWeekRow where
  date : ℤ
  successful : ℕ
  failed : ℕ
  txs : ℕ
deriving DecidableEq

/-- `load_tx_success_fail`: weekly buckets with successful, failed and
distinct transaction counts, ordered by week. -/
def load_tx_success_fail (txs : List Tx) : List TxWeekRow :=
  (List.insertionSort (fun a b : ℤ => a ≤ b)
      ((txs.map (fun t => weekOf t.block_date)).dedup)).map (fun w =>
    { date := w
      successful := ((txs.filter (fun t => weekOf t.block_date = w)).filter
        (·.tx_succeeded)).length
      failed := ((txs.filter (fun t => weekOf t.block_date = w)).filter
        (fun t => !t.tx_succeeded)).length
      txs := ((((txs.filter (fun t => weekOf t.block_date = w)).map (·.tx_id)).dedup).length) })

/-- Minimum of a list of integers (only ever applied to nonempty lists). -/
def listMinI : List ℤ → ℤ
  | [] => 0
  | x :: xs => xs.foldl min x

/-- The `lst_all` CTE projected to week buckets: one entry per distinct
sender, holding `DATE_TRUNC(week, MIN(block_timestamp)::date)`. -/
def firstSeenWeeks (txs : List Tx) : List ℤ :=
  ((txs.map (·.tx_from)).dedup).map (fun a =>
    weekOf (listMinI ((txs.filter (fun t => t.tx_from = a)).map (·.block_date))))

/-- `GROUP BY` week of the first-seen dates, ordered by week: pairs of
(week, `COUNT(DISTINCT tx_from)`). -/
def weeklyNewUsers (txs : List Tx) : List (ℤ × ℕ) :=
  (List.insertionSort (fun a b : ℤ => a ≤ b) ((firstSeenWeeks txs).dedup)).map
    (fun w => (w, (firstSeenWeeks txs).count w))

/-- A row of the new-user query. -/
structure NewUserRow where
  date : ℤ
  newUsers : ℕ
  cumulativeNewUsers : ℕ
deriving DecidableEq

/-- `SUM(...) OVER (ORDER BY week)`: attach the running sum. -/
def addCumulative (acc : ℕ) : List (ℤ × ℕ) → List NewUserRow
  | [] => []
  | (w, n) :: rest => ⟨w, n, acc + n⟩ :: addCumulative (acc + n) rest

/-- `load_new_user_metrics`: weekly new users with cumulative running sum. -/
def load_new_user_metrics (txs : List Tx) : List NewUserRow :=
  addCumulative 0 (weeklyNewUsers txs)

/-- One row of the three-way join of `fact_msg_attributes`, `dim_labels`
(on `address = ATTRIBUTE_VALUE`) and `fact_transactions` (`USING(tx_id)`),
projected to the columns the two project queries read. -/
structure Ev where
  tx_id : ℕ
  label : ℕ
  label_subtype : ℕ
  tx_from : ℕ
  block_date : ℤ
deriving DecidableEq

/-- The `LABEL_SUBTYPE` value excluded by both project queries. -/
def token_contract : ℕ := 0

/-- The shared `WHERE` clause of both project queries:
`block_timestamp::date >= CURRENT_DATE - 30 AND LABEL_SUBTYPE != 'token_contract'`. -/
def windowEvents (evs : List Ev) (today : ℤ) : List Ev :=
  evs.filter (fun e => today - 30 ≤ e.block_date ∧ e.label_subtype ≠ token_contract)

/-- A row of the per-label grouping: label, `COUNT(tx_id)`, `COUNT(DISTINCT tx_from)`. -/
structure ProjRow where
  label : ℕ
  txns : ℕ
  wallets : ℕ
deriving DecidableEq

/-- `GROUP BY LABEL` over a list of joined rows. -/
def projRows (es : List Ev) : List ProjRow :=
  ((es.map (·.label)).dedup).map (fun l =>
    { label := l
      txns := (es.filter (fun e => e.label = l)).length
      wallets := ((((es.filter (fun e => e.label = l)).map (·.tx_from)).dedup).length) })

/-- `ORDER BY TXs DESC`: descending transaction count. -/
def byTxnsDesc (a b : ProjRow) : Prop := b.txns ≤ a.txns

instance : DecidableRel byTxnsDesc := fun a b => Nat.decLe b.txns a.txns

instance : IsTrans ProjRow byTxnsDesc := ⟨fun _ _ _ h1 h2 => le_trans h2 h1⟩

instance : IsTotal ProjRow byTxnsDesc := ⟨fun a b => le_total b.txns a.txns⟩

/-- The `lst_top` CTE: `SELECT TOP 10 ... ORDER BY TXs DESC` over the
trailing 30-day window. -/
def lst_top (evs : List Ev) (today : ℤ) : List ProjRow :=
  (List.insertionSort byTxnsDesc (projRows (windowEvents evs today))).take 10

/-- The label set of `lst_top` (the `LABEL IN (SELECT label FROM lst_top)` filter). -/
def topLabels (evs : List Ev) (today : ℤ) : List ℕ :=
  (lst_top evs today).map (·.label)

/-- Joined rows in the window whose label is in `lst_top`. -/
def engagementEvents (evs : List Ev) (today : ℤ) : List Ev :=
  (windowEvents evs today).filter (fun e => e.label ∈ topLabels evs today)

/-- The `GROUP BY 1,2` keys: distinct (day, label) pairs. -/
def engagementKeys (evs : List Ev) (today : ℤ) : List (ℤ × ℕ) :=
  ((engagementEvents evs today).map (fun e => (e.block_date, e.label))).dedup

/-- A row of the engagement time series. -/
structure EngageRow where
  date : ℤ
  label : ℕ
  txns : ℕ
  wallets : ℕ
deriving DecidableEq

/-- `load_top_projects_engagement`: daily (date, label) series over the
30-day window, restricted to the `lst_top` labels, `ORDER BY 1`. -/
def load_top_projects_engagement (evs : List Ev) (today : ℤ) : List EngageRow :=
  (List.insertionSort (fun a b : ℤ × ℕ => a.1 ≤ b.1) (engagementKeys evs today)).map
    (fun k =>
      { date := k.1
        label := k.2
        txns := ((engagementEvents evs today).filter
          (fun e => e.block_date = k.1 ∧ e.label = k.2)).length
        wallets := (((((engagementEvents evs today).filter
          (fun e => e.block_date = k.1 ∧ e.label = k.2)).map (·.tx_from)).dedup).length) })

/-- `load_top_projects_all_time`: `SELECT TOP 10 ... ORDER BY 2 DESC` over the
same window and the same `LABEL_SUBTYPE` exclusion.  The stable sort models
one valid execution; SQL leaves the relative order of rows with equal
transaction counts unspecified, and this query runs separately from the
engagement query, so the full semantics is the relation
`IsTopProjectsAllTime` below. -/
def load_top_projects_all_time (evs : List Ev) (today : ℤ) : List ProjRow :=
  (List.insertionSort byTxnsDesc (projRows (windowEvents evs today))).take 10

/-- A possible output of `ORDER BY TXs DESC` over the grouped rows: any
reordering that is sorted by descending transaction count.  SQL does not
specify the relative order of rows with equal counts, so each execution may
pick a different such `out`. -/
def IsSortedByTxnsDesc (rows out : List ProjRow) : Prop :=
  List.Perm out rows ∧ List.Sorted byTxnsDesc out

/-- Nondeterministic semantics of the all-time snapshot query: `res` is a
possible result of `SELECT TOP 10 ... ORDER BY 2 DESC`. -/
def IsTopProjectsAllTime (evs : List Ev) (today : ℤ) (res : List ProjRow) : Prop :=
  ∃ out, IsSortedByTxnsDesc (projRows (windowEvents evs today)) out ∧ res = out.take 10

/-- The engagement query body with an explicit `lst_top` label set `tls`:
window rows whose label is in `tls`. -/
def engagementEventsWith (evs : List Ev) (today : ℤ) (tls : List ℕ) : List Ev :=
  (windowEvents evs today).filter (fun e => e.label ∈ tls)

/-- The `GROUP BY 1,2` keys of the engagement body over `tls`. -/
def engagementKeysWith (evs : List Ev) (today : ℤ) (tls : List ℕ) : List (ℤ × ℕ) :=
  ((engagementEventsWith evs today tls).map (fun e => (e.block_date, e.label))).dedup

/-- The engagement daily series produced from an explicit `lst_top` label
set `tls`: the query body of `load_top_projects_engagement` with the CTE
outcome factored out. -/
def load_top_projects_engagement_with (evs : List Ev) (today : ℤ) (tls : List ℕ) :
    List EngageRow :=
  (List.insertionSort (fun a b : ℤ × ℕ => a.1 ≤ b.1) (engagementKeysWith evs today tls)).map
    (fun k =>
      { date := k.1
        label := k.2
        txns := ((engagementEventsWith evs today tls).filter
          (fun e => e.block_date = k.1 ∧ e.label = k.2)).length
        wallets := (((((engagementEventsWith evs today tls).filter
          (fun e => e.block_date = k.1 ∧ e.label = k.2)).map (·.tx_from)).dedup).length) })

/-- Nondeterministic semantics of the engagement query: `res` is a possible
result, produced from whichever tie resolution its own `lst_top` CTE used.
(The `ORDER BY 1` of the series rows also leaves same-date rows in an
unspecified order; the stable sort kept here does not affect which labels
appear, which is all the label-set claims read.) -/
def IsTopProjectsEngagement (evs : List Ev) (today : ℤ) (res : List EngageRow) : Prop :=
  ∃ out, IsSortedByTxnsDesc (projRows (windowEvents evs today)) out ∧
    res = load_top_projects_engagement_with evs today ((out.take 10).map (·.label))

/-- Outcome of a render site: either the no-data branch (warning or skipped
section, no numbers shown) or a chart/KPI payload. -/
inductive Rendered (α : Type) where
  | noData : Rendered α
  | chart : α → Rendered α
deriving DecidableEq

/-- Row 1: `if not chain_summary.empty` then the three KPI tiles from
`iloc[0]`, else nothing. -/
def renderOverviewKPIs : List SummaryRow → Rendered (ℕ × ℕ × ℚ)
  | [] => .noData
  | r :: _ => .chart (r.numTransactions, r.numUsers, r.totalFee)

/-- Row 2: `if not chain_summary.empty and not avg_block_time.empty`. -/
def renderPerformanceKPIs : List SummaryRow → List ℚ → Rendered (ℕ × ℕ × ℚ)
  | [], _ => .noData
  | _ :: _, [] => .noData
  | r :: _, a :: _ => .chart (r.tpm, r.tps, a)

/-- Row 3, chart 1: success/failure chart or the no-data warning. -/
def renderTxStatusChart : List TxWeekRow → Rendered (List ℤ × List ℕ × List ℕ)
  | [] => .noData
  | rows => .chart (rows.map (·.date), rows.map (·.successful), rows.map (·.failed))

/-- Row 3, chart 2: new-user chart or the no-data warning. -/
def renderNewUsersChart : List NewUserRow → Rendered (List ℤ × List ℕ × List ℕ)
  | [] => .noData
  | rows => .chart (rows.map (·.date), rows.map (·.newUsers), rows.map (·.cumulativeNewUsers))

/-- Row 4, chart 1: stacked transactions bars or the no-data warning. -/
def renderTopProjectsBars : List EngageRow → Rendered (List (ℤ × ℕ × ℕ))
  | [] => .noData
  | rows => .chart (rows.map (fun r => (r.date, r.label, r.txns)))

/-- Row 4, chart 2: stacked wallets bars or the no-data warning. -/
def renderFavoriteProjectsBars : List EngageRow → Rendered (List (ℤ × ℕ × ℕ))
  | [] => .noData
  | rows => .chart (rows.map (fun r => (r.date, r.label, r.wallets)))

/-- Row 5, chart 1: transactions donut or the no-data warning. -/
def renderTxnsDonut : List ProjRow → Rendered (List (ℕ × ℕ))
  | [] => .noData
  | rows => .chart (rows.map (fun r => (r.label, r.txns)))

/-- Row 5, chart 2: wallets donut or the no-data warning. -/
def renderWalletsDonut : List ProjRow → Rendered (List (ℕ × ℕ))
  | [] => .noData
  | rows => .chart (rows.map (fun r => (r.label, r.wallets)))

/-- Cache keys: query identifier plus parameter tuple. -/
def QKey : Type := String × List ℤ

instance : DecidableEq QKey := inferInstanceAs (DecidableEq (String × List ℤ))

/-- Modelled from the spec: the Result Cache behind the `@st.cache_data`
annotations (the memoization layer itself is library code, not part of the
repository sources).  `getOrCompute(queryId+params, computeFn)` returns the
stored table for the key when present, otherwise runs `computeFn` once and
stores the result.  The third component counts how many times `computeFn`
ran during the call. -/
def getOrCompute {α : Type} (cache : List (QKey × α)) (k : QKey) (f : Unit → α) :
    α × List (QKey × α) × ℕ :=
  match cache.find? (fun p => p.1 = k) with
  | some p => (p.2, cache, 0)
  | none => (f (), (k, f ()) :: cache, 1)

deriving instance DecidableEq for Except

/-- Evaluation helper: the chain-summary rollup, with the four aggregates
supplied as hypotheses. -/
theorem chain_summary_eval (txs : List Tx) (nTx days users fees : ℕ)
    (hd : days ≠ 0)
    (h1 : (((txs.filter (·.tx_succeeded)).map (·.tx_id)).dedup).length = nTx)
    (h2 : (((txs.filter (·.tx_succeeded)).map (·.block_date)).dedup).length = days)
    (h3 : (((txs.filter (·.tx_succeeded)).map (·.tx_from)).dedup).length = users)
    (h4 : ((txs.filter (·.tx_succeeded)).map (·.fee)).sum = fees) :
    load_chain_summary txs = Except.ok
      ⟨nTx, days, users, roundDiv nTx (days * 24), roundDiv nTx (days * 24 * 60),
       roundDiv nTx (days * 24 * 60 * 60), (roundDiv fees 10000 : ℚ) / 100⟩ := by
  unfold load_chain_summary
  rw [h1, h2, h3, h4, if_neg hd]

/-- A concrete warehouse: 100 successful transactions with distinct ids,
across 2 distinct days and 30 distinct senders, each paying 5 AXL
(5,000,000 micro-units), total fee 500,000,000 micro-units. -/
def mkTxs100 : List Tx :=
  (List.range 100).map (fun i => ⟨i, ((i % 2 : ℕ) : ℤ), i % 30, 5000000, true⟩)

/-- Claim C1: on a warehouse with 100 transactions across 2 activity days,
30 distinct senders and 500,000,000 micro-units of fees, the chain-summary
query returns the single row (100, 2, 30, TPH 2, TPM 0, TPS 0, fee 500.0),
each rate being round(totalTxns / activeDays / divisor). -/
theorem chain_summary_scenario (txs : List Tx)
    (h1 : (((txs.filter (·.tx_succeeded)).map (·.tx_id)).dedup).length = 100)
    (h2 : (((txs.filter (·.tx_succeeded)).map (·.block_date)).dedup).length = 2)
    (h3 : (((txs.filter (·.tx_succeeded)).map (·.tx_from)).dedup).length = 30)
    (h4 : ((txs.filter (·.tx_succeeded)).map (·.fee)).sum = 500000000) :
    load_chain_summary txs = Except.ok ⟨100, 2, 30, 2, 0, 0, 500⟩ := by
  rw [chain_summary_eval txs 100 2 30 500000000 (by norm_num) h1 h2 h3 h4]
  norm_num [roundDiv]

set_option maxRecDepth 8000 in
/-- Witness for C1 at the concrete warehouse `mkTxs100`. -/
theorem chain_summary_scenario_witness :
    load_chain_summary mkTxs100 = Except.ok ⟨100, 2, 30, 2, 0, 0, 500⟩ :=
  chain_summary_scenario mkTxs100 (by decide) (by decide) (by decide) (by decide)

/-- Claim C2: two calls to the cached loader with the same (queryId, params)
key run the underlying query at most once, and the second call returns the
value returned by the first. -/
theorem cache_at_most_once {α : Type} (cache : List (QKey × α)) (k : QKey)
    (f : Unit → α) :
    (getOrCompute cache k f).2.2 +
        (getOrCompute (getOrCompute cache k f).2.1 k f).2.2 ≤ 1 ∧
    (getOrCompute (getOrCompute cache k f).2.1 k f).1 = (getOrCompute cache k f).1 := by
  unfold getOrCompute
  cases h : cache.find? (fun p => p.1 = k) with
  | some p => simp [h]
  | none =>
    simp only [h]
    rw [List.find?_cons_of_pos _ (by simp)]
    simp

/-- A concrete warehouse of 708 successful transactions on a single day:
the smallest case where staged rounding and single rounding disagree. -/
def mkTxs708 : List Tx := (List.range 708).map (fun i => ⟨i, 0, 0, 0, true⟩)

/-- The chain-summary row of `mkTxs708`. -/
def row708 : SummaryRow := ⟨708, 1, 1, 30, 0, 0, 0⟩

/-- Deduplicating a nonempty constant list leaves a single element. -/
theorem dedup_replicate_succ {α : Type} [DecidableEq α] (n : ℕ) (a : α) :
    (List.replicate (n + 1) a).dedup = [a] := by
  induction n with
  | zero => simp
  | succ m ih => rw [List.replicate_succ, List.dedup_cons_of_mem (by simp), ih]

theorem mkTxs708_filter : mkTxs708.filter (·.tx_succeeded) = mkTxs708 := by
  simp [mkTxs708, List.filter_map, Function.comp_def]

theorem mkTxs708_ids : ((mkTxs708.filter (·.tx_succeeded)).map (·.tx_id)).dedup.length = 708 := by
  rw [mkTxs708_filter]
  rw [show mkTxs708.map (·.tx_id) = List.range 708 by
    simp [mkTxs708, List.map_map, Function.comp_def]]
  rw [(List.nodup_range 708).dedup, List.length_range]

theorem mkTxs708_days : ((mkTxs708.filter (·.tx_succeeded)).map (·.block_date)).dedup.length = 1 := by
  rw [mkTxs708_filter]
  rw [show mkTxs708.map (·.block_date) = List.replicate 708 (0 : ℤ) by
    simp [mkTxs708, List.map_map, Function.comp_def, List.eq_replicate_iff]]
  rw [show (708 : ℕ) = 707 + 1 from rfl, dedup_replicate_succ]
  rfl

theorem mkTxs708_users : ((mkTxs708.filter (·.tx_succeeded)).map (·.tx_from)).dedup.length = 1 := by
  rw [mkTxs708_filter]
  rw [show mkTxs708.map (·.tx_from) = List.replicate 708 (0 : ℕ) by
    simp [mkTxs708, List.map_map, Function.comp_def, List.eq_replicate_iff]]
  rw [show (708 : ℕ) = 707 + 1 from rfl, dedup_replicate_succ]
  rfl

theorem mkTxs708_fees : ((mkTxs708.filter (·.tx_succeeded)).map (·.fee)).sum = 0 := by
  rw [mkTxs708_filter]
  rw [show mkTxs708.map (·.fee) = List.replicate 708 (0 : ℕ) by
    simp [mkTxs708, List.map_map, Function.comp_def, List.eq_replicate_iff]]
  rw [List.sum_replicate, smul_zero]

/-- Counterexample to C3: on `mkTxs708` the query returns TPH 30 and TPM 0,
but staged rounding would give TPM = round(30/60) = 1. -/
theorem staged_rounding_counterexample :
    load_chain_summary mkTxs708 = Except.ok row708 ∧
    row708.tpm ≠ roundDiv row708.tph 60 := by
  refine ⟨?_, by decide⟩
  rw [chain_summary_eval mkTxs708 708 1 1 0 (by norm_num) mkTxs708_ids mkTxs708_days
    mkTxs708_users mkTxs708_fees]
  norm_num [roundDiv, row708]

/-- Claim C3 (amended): every rate in the returned row is a single
half-away-from-zero rounding of the exact quotient totalTxns / activeDays /
divisor; rounded values are not reused across stages. -/
theorem single_rounding_per_rate (txs : List Tx) (r : SummaryRow)
    (h : load_chain_summary txs = Except.ok r) :
    r.tph = roundDiv r.numTransactions (r.activityDays * 24) ∧
    r.tpm = roundDiv r.numTransactions (r.activityDays * 24 * 60) ∧
    r.tps = roundDiv r.numTransactions (r.activityDays * 24 * 60 * 60) := by
  unfold load_chain_summary at h
  by_cases hd : (((txs.filter (·.tx_succeeded)).map (·.block_date)).dedup).length = 0
  · rw [if_pos hd] at h
    exact absurd h (by simp)
  · rw [if_neg hd] at h
    injection h with h
    subst h
    exact ⟨rfl, rfl, rfl⟩

/-- The chain-summary row of `mkTxs100`. -/
def chainRow100 : SummaryRow := ⟨100, 2, 30, 2, 0, 0, 500⟩

set_option maxRecDepth 8000 in
/-- Witness for the amended C3 at the concrete warehouse `mkTxs100`. -/
theorem single_rounding_per_rate_witness :
    chainRow100.tph = roundDiv chainRow100.numTransactions (chainRow100.activityDays * 24) ∧
    chainRow100.tpm = roundDiv chainRow100.numTransactions (chainRow100.activityDays * 24 * 60) ∧
    chainRow100.tps = roundDiv chainRow100.numTransactions (chainRow100.activityDays * 24 * 60 * 60) :=
  single_rounding_per_rate mkTxs100 chainRow100 (by
    rw [chain_summary_eval mkTxs100 100 2 30 500000000 (by norm_num) (by decide)
      (by decide) (by decide) (by decide)]
    norm_num [roundDiv, chainRow100])

/-- Counterexample to C7: on the empty warehouse the activity-day count is 0
and the chain-summary query fails with a division-by-zero error instead of
returning an undefined/NaN row. -/
theorem no_divzero_guard_counterexample :
    ((([] : List Tx).filter (·.tx_succeeded)).map (·.block_date)).dedup.length = 0 ∧
    load_chain_summary ([] : List Tx) = Except.error "Division by zero" :=
  ⟨rfl, rfl⟩

/-- Claim C7 (amended): when the distinct-activity-day count over successful
transactions is 0, the chain-summary query raises a division-by-zero error;
there is no guard, and the caller never receives a row in this case. -/
theorem divzero_propagates (txs : List Tx)
    (h : (((txs.filter (·.tx_succeeded)).map (·.block_date)).dedup).length = 0) :
    load_chain_summary txs = Except.error "Division by zero" := by
  unfold load_chain_summary
  rw [if_pos h]

/-- Witness for the amended C7 at the empty warehouse. -/
theorem divzero_propagates_witness :
    load_chain_summary ([] : List Tx) = Except.error "Division by zero" :=
  divzero_propagates [] (by decide)

/-- Claim C4: on an id-ordered block list with at least one successor the
query returns the rounded mean of the successive timestamp deltas, dividing
by the number of deltas (the first block is excluded, not a zero delta);
in particular timestamps t0, t0+5, t0+7, t0+15 give deltas 5, 2, 8 and
average 5.0 seconds. -/
theorem avg_block_time_spec :
    (∀ (bs : List Block),
      List.Sorted (fun a b : Block => a.block_id < b.block_id) bs → 2 ≤ bs.length →
      load_avg_block_time bs = some (round2
        (((List.zipWith (fun cur prev : ℤ => cur - prev) (bs.map (·.block_timestamp)).tail
            (bs.map (·.block_timestamp))).sum : ℚ) / ((bs.length - 1 : ℕ) : ℚ)))) ∧
    (∀ t0 : ℤ, load_avg_block_time
      [⟨0, t0⟩, ⟨1, t0 + 5⟩, ⟨2, t0 + 7⟩, ⟨3, t0 + 15⟩] = some 5) := by
  constructor
  · intro bs hs h2
    have hord : orderBlocks bs = bs :=
      List.Sorted.insertionSort_eq (hs.imp (fun h => le_of_lt h))
    have hdiffs : blockDiffs bs = List.zipWith (fun cur prev : ℤ => cur - prev)
        (bs.map (·.block_timestamp)).tail (bs.map (·.block_timestamp)) := by
      rw [blockDiffs, hord]
    have hlen : (blockDiffs bs).length = bs.length - 1 := by
      rw [hdiffs, List.length_zipWith, List.length_tail, List.length_map]
      omega
    rw [load_avg_block_time, if_neg (by rw [hlen]; omega), hlen, hdiffs]
  · intro t0
    simp [load_avg_block_time, blockDiffs, orderBlocks, List.insertionSort,
      List.orderedInsert, round2, roundHalfAway]
    ring_nf

/-- Four ordered blocks five, two and eight seconds apart. -/
def blocksEx : List Block := [⟨0, 100⟩, ⟨1, 105⟩, ⟨2, 107⟩, ⟨3, 115⟩]

/-- Witness for C4 at the concrete block list `blocksEx`. -/
theorem avg_block_time_spec_witness : load_avg_block_time blocksEx = some 5 := by
  have h := avg_block_time_spec.1 blocksEx (by decide) (by decide)
  rw [h]
  norm_num [blocksEx, round2, roundHalfAway]

/-- The new-user column of the cumulated table is the counts column. -/
theorem addCumulative_map_new (l : List (ℤ × ℕ)) : ∀ acc,
    (addCumulative acc l).map (·.newUsers) = l.map Prod.snd := by
  induction l with
  | nil => intro acc; rfl
  | cons p rest ih =>
    intro acc
    cases p with
    | mk w n => simp [addCumulative, ih]

/-- The week column of the cumulated table is the keys column. -/
theorem addCumulative_map_date (l : List (ℤ × ℕ)) : ∀ acc,
    (addCumulative acc l).map (·.date) = l.map Prod.fst := by
  induction l with
  | nil => intro acc; rfl
  | cons p rest ih =>
    intro acc
    cases p with
    | mk w n => simp [addCumulative, ih]

/-- Entry `i` of the cumulative column is `acc` plus the prefix sum of counts. -/
theorem addCumulative_cum_get (l : List (ℤ × ℕ)) : ∀ (acc i : ℕ)
    (hi : i < (addCumulative acc l).length),
    ((addCumulative acc l).get ⟨i, hi⟩).cumulativeNewUsers
      = acc + ((l.map Prod.snd).take (i + 1)).sum := by
  induction l with
  | nil => intro acc i hi; simp [addCumulative] at hi
  | cons p rest ih =>
    intro acc i hi
    cases p with
    | mk w n =>
      cases i with
      | zero => simp [addCumulative]
      | succ j =>
        have hj : j < (addCumulative (acc + n) rest).length := by
          simpa [addCumulative] using hi
        have := ih (acc + n) j hj
        simp only [addCumulative, List.map_cons, List.take_succ_cons, List.sum_cons,
          List.get_cons_succ]
        rw [this]
        omega

/-- The cumulative column starts at or above the accumulator. -/
theorem addCumulative_head_cum (l : List (ℤ × ℕ)) (acc : ℕ) :
    ∀ x ∈ ((addCumulative acc l).map (·.cumulativeNewUsers)).head?, acc ≤ x := by
  cases l with
  | nil => simp [addCumulative]
  | cons p rest =>
    cases p with
    | mk w n =>
      simp [addCumulative]

/-- The cumulative column is nondecreasing. -/
theorem addCumulative_chain (l : List (ℤ × ℕ)) : ∀ acc,
    List.Chain' (· ≤ ·) ((addCumulative acc l).map (·.cumulativeNewUsers)) := by
  induction l with
  | nil => intro acc; simp [addCumulative]
  | cons p rest ih =>
    intro acc
    cases p with
    | mk w n =>
      simp only [addCumulative, List.map_cons]
      refine List.chain'_cons'.mpr ⟨?_, ih (acc + n)⟩
      intro y hy
      have := addCumulative_head_cum rest (acc + n) y hy
      omega

/-- The last cumulative value is `acc` plus the total of the counts. -/
theorem addCumulative_getLast (l : List (ℤ × ℕ)) : ∀ acc,
    ((addCumulative acc l).map (·.cumulativeNewUsers)).getLast? =
      if l = [] then none else some (acc + (l.map Prod.snd).sum) := by
  induction l with
  | nil => intro acc; rfl
  | cons p rest ih =>
    intro acc
    cases p with
    | mk w n =>
      rw [if_neg (by simp)]
      cases hr : rest with
      | nil => simp [addCumulative]
      | cons q rest2 =>
        cases q with
        | mk w2 n2 =>
          have h2 := ih (acc + n)
          rw [hr, if_neg (by simp)] at h2
          simp only [addCumulative, List.map_cons, List.getLast?_cons_cons] at h2 ⊢
          rw [h2]
          simp only [List.map_cons, List.sum_cons]
          congr 1
          omega

/-- The weekly counts total the number of distinct senders: every distinct
sender lands in exactly one first-seen week bucket. -/
theorem weekly_sum (txs : List Tx) :
    ((weeklyNewUsers txs).map Prod.snd).sum = ((txs.map (·.tx_from)).dedup).length := by
  unfold weeklyNewUsers
  rw [List.map_map]
  have hperm : List.Perm
      ((List.insertionSort (fun a b : ℤ => a ≤ b) ((firstSeenWeeks txs).dedup)).map
        (Prod.snd ∘ fun w => (w, (firstSeenWeeks txs).count w)))
      (((firstSeenWeeks txs).dedup).map
        (Prod.snd ∘ fun w => (w, (firstSeenWeeks txs).count w))) :=
    (List.perm_insertionSort _ _).map _
  rw [hperm.sum_eq]
  have : ((firstSeenWeeks txs).dedup).map (Prod.snd ∘ fun w => (w, (firstSeenWeeks txs).count w))
      = ((firstSeenWeeks txs).dedup).map (fun w => (firstSeenWeeks txs).count w) := rfl
  rw [this, List.sum_map_count_dedup_eq_length]
  unfold firstSeenWeeks
  rw [List.length_map]

/-- A nonempty warehouse produces at least one weekly row. -/
theorem weeklyNewUsers_ne_nil {txs : List Tx} (h : txs ≠ []) : weeklyNewUsers txs ≠ [] := by
  unfold weeklyNewUsers
  intro hc
  rw [List.map_eq_nil_iff] at hc
  have hlen := congrArg List.length hc
  rw [List.length_insertionSort, List.length_nil] at hlen
  rw [List.length_eq_zero] at hlen
  rw [List.dedup_eq_nil] at hlen
  unfold firstSeenWeeks at hlen
  rw [List.map_eq_nil_iff, List.dedup_eq_nil, List.map_eq_nil_iff] at hlen
  exact h hlen

/-- `get?` form of `addCumulative_cum_get`. -/
theorem addCumulative_cum_get? (l : List (ℤ × ℕ)) : ∀ (acc i : ℕ) (r : NewUserRow),
    (addCumulative acc l).get? i = some r →
    r.cumulativeNewUsers = acc + ((l.map Prod.snd).take (i + 1)).sum := by
  induction l with
  | nil => intro acc i r h; simp [addCumulative] at h
  | cons p rest ih =>
    intro acc i r h
    cases p with
    | mk w n =>
      cases i with
      | zero =>
        simp only [addCumulative, List.get?_cons_zero, Option.some_inj] at h
        subst h
        simp
      | succ j =>
        simp only [addCumulative, List.get?_cons_succ] at h
        have := ih (acc + n) j r h
        simp only [List.map_cons, List.take_succ_cons, List.sum_cons]
        omega

/-- A concrete warehouse of 35 single-transaction users: 10 first seen in
week 0, 5 in week 7, 20 in week 14. -/
def txs35 : List Tx :=
  (List.range 35).map (fun u =>
    ⟨u, (if u < 10 then 0 else if u < 15 then 7 else 14 : ℤ), u, 0, true⟩)

/-- Claim C5: the cumulative-new-users column is the running sum of the
new-users column, rows are ordered by week ascending with each week in at
most one row; weekly counts 10, 5, 20 give cumulative 10, 15, 35. -/
theorem cumulative_running_sum :
    (∀ (txs : List Tx) (i : ℕ) (r : NewUserRow),
      (load_new_user_metrics txs).get? i = some r →
      r.cumulativeNewUsers =
        (((load_new_user_metrics txs).map (·.newUsers)).take (i + 1)).sum) ∧
    (∀ txs : List Tx, ((load_new_user_metrics txs).map (·.date)).Nodup) ∧
    (∀ txs : List Tx, List.Sorted (· ≤ ·) ((load_new_user_metrics txs).map (·.date))) ∧
    load_new_user_metrics txs35 = [⟨0, 10, 10⟩, ⟨7, 5, 15⟩, ⟨14, 20, 35⟩] := by
  refine ⟨?_, ?_, ?_, by decide⟩
  · intro txs i r h
    rw [load_new_user_metrics] at h
    rw [load_new_user_metrics, addCumulative_map_new]
    rw [addCumulative_cum_get? (weeklyNewUsers txs) 0 i r h, zero_add]
  · intro txs
    rw [load_new_user_metrics, addCumulative_map_date, weeklyNewUsers, List.map_map]
    rw [show (Prod.fst ∘ fun w => (w, (firstSeenWeeks txs).count w)) = id from rfl, List.map_id]
    exact ((List.perm_insertionSort _ _).nodup_iff).mpr (List.nodup_dedup _)
  · intro txs
    rw [load_new_user_metrics, addCumulative_map_date, weeklyNewUsers, List.map_map]
    rw [show (Prod.fst ∘ fun w => (w, (firstSeenWeeks txs).count w)) = id from rfl, List.map_id]
    exact List.sorted_insertionSort _ _

/-- Witness for C5 at `txs35`, row index 1. -/
theorem cumulative_running_sum_witness :
    (⟨7, 5, 15⟩ : NewUserRow).cumulativeNewUsers =
      (((load_new_user_metrics txs35).map (·.newUsers)).take 2).sum :=
  cumulative_running_sum.1 txs35 1 ⟨7, 5, 15⟩ (by decide)

/-- Claim C9: the cumulative column is nondecreasing and its final value is
the number of distinct sender addresses in the transactions table. -/
theorem cumulative_monotone_total :
    (∀ txs : List Tx, List.Chain' (· ≤ ·)
        ((load_new_user_metrics txs).map (·.cumulativeNewUsers))) ∧
    (∀ txs : List Tx,
      ((load_new_user_metrics txs).map (·.cumulativeNewUsers)).getLast? =
        if txs = [] then none else some (((txs.map (·.tx_from)).dedup).length)) := by
  constructor
  · intro txs
    rw [load_new_user_metrics]
    exact addCumulative_chain _ 0
  · intro txs
    rw [load_new_user_metrics, addCumulative_getLast]
    by_cases h : txs = []
    · subst h
      rfl
    · rw [if_neg (weeklyNewUsers_ne_nil h), if_neg h, zero_add, weekly_sum]

/-- Claim C6: every render site fed a zero-row table takes its no-data
branch: no exception, and no numeric payload (in particular no zero) is
produced. -/
theorem empty_table_renders_no_data (cs : List SummaryRow) (abt : List ℚ) :
    renderOverviewKPIs [] = Rendered.noData ∧
    renderPerformanceKPIs [] abt = Rendered.noData ∧
    renderPerformanceKPIs cs [] = Rendered.noData ∧
    renderTxStatusChart [] = Rendered.noData ∧
    renderNewUsersChart [] = Rendered.noData ∧
    renderTopProjectsBars [] = Rendered.noData ∧
    renderFavoriteProjectsBars [] = Rendered.noData ∧
    renderTxnsDonut [] = Rendered.noData ∧
    renderWalletsDonut [] = Rendered.noData := by
  refine ⟨rfl, ?_, ?_, rfl, rfl, rfl, rfl, rfl, rfl⟩
  · cases abt <;> rfl
  · cases cs <;> rfl

/-- Claim C8: every row of the engagement series carries a label from the
top-10 ranking and a date inside the trailing 30-day window; the ranking
keeps at most 10 labels, and everything ranked below the kept rows has a
transaction count no larger than any kept row. -/
theorem top_projects_engagement_spec (evs : List Ev) (today : ℤ) :
    (∀ r ∈ load_top_projects_engagement evs today,
       r.label ∈ topLabels evs today ∧ today - 30 ≤ r.date) ∧
    (lst_top evs today).length ≤ 10 ∧
    (∀ p ∈ lst_top evs today, ∀ q ∈ projRows (windowEvents evs today),
       q ∉ lst_top evs today → q.txns ≤ p.txns) := by
  refine ⟨?_, List.length_take_le _ _, ?_⟩
  · intro r hr
    rw [load_top_projects_engagement] at hr
    obtain ⟨k, hk, rfl⟩ := List.mem_map.mp hr
    have hk2 : k ∈ engagementKeys evs today := (List.mem_insertionSort _).mp hk
    rw [engagementKeys] at hk2
    obtain ⟨e, he, hke⟩ := List.mem_map.mp (List.mem_dedup.mp hk2)
    rw [engagementEvents, List.mem_filter] at he
    obtain ⟨hew, hetop⟩ := he
    rw [windowEvents, List.mem_filter] at hew
    obtain ⟨-, hcond⟩ := hew
    simp only [decide_eq_true_eq] at hcond hetop
    cases hke
    exact ⟨hetop, hcond.1⟩
  · intro p hp q hq hnot
    have hqs : q ∈ List.insertionSort byTxnsDesc (projRows (windowEvents evs today)) :=
      (List.mem_insertionSort _).mpr hq
    have hsorted := List.sorted_insertionSort byTxnsDesc (projRows (windowEvents evs today))
    have hq2 : q ∈ (List.insertionSort byTxnsDesc (projRows (windowEvents evs today))).take 10 ++
        (List.insertionSort byTxnsDesc (projRows (windowEvents evs today))).drop 10 := by
      rw [List.take_append_drop]
      exact hqs
    rcases List.mem_append.mp hq2 with h | h
    · exact absurd h hnot
    · exact hsorted.rel_of_mem_take_of_mem_drop hp h

/-- Eleven joined rows inside the window: one event per label 0..10. -/
def evs11 : List Ev := (List.range 11).map (fun i => ⟨i, i, 1, i, 100⟩)

/-- Witness for C8 at `evs11`: label 0 is kept, label 10 is ranked out. -/
theorem top_projects_engagement_witness :
    ((⟨100, 0, 1, 1⟩ : EngageRow).label ∈ topLabels evs11 100 ∧
      (100 : ℤ) - 30 ≤ (⟨100, 0, 1, 1⟩ : EngageRow).date) ∧
    (lst_top evs11 100).length ≤ 10 ∧
    (⟨10, 1, 1⟩ : ProjRow).txns ≤ (⟨0, 1, 1⟩ : ProjRow).txns := by
  obtain ⟨h1, h2, h3⟩ := top_projects_engagement_spec evs11 100
  exact ⟨h1 ⟨100, 0, 1, 1⟩ (by decide), h2,
    h3 ⟨0, 1, 1⟩ (by decide) ⟨10, 1, 1⟩ (by decide) (by decide)⟩

/-- The stable-sorted deterministic embedding is one valid execution of the
all-time snapshot query. -/
theorem load_top_projects_all_time_valid (evs : List Ev) (today : ℤ) :
    IsTopProjectsAllTime evs today (load_top_projects_all_time evs today) :=
  ⟨List.insertionSort byTxnsDesc (projRows (windowEvents evs today)),
    ⟨List.perm_insertionSort _ _, List.sorted_insertionSort _ _⟩, rfl⟩

/-- The stable-sorted deterministic embedding is one valid execution of the
engagement query. -/
theorem load_top_projects_engagement_valid (evs : List Ev) (today : ℤ) :
    IsTopProjectsEngagement evs today (load_top_projects_engagement evs today) :=
  ⟨List.insertionSort byTxnsDesc (projRows (windowEvents evs today)),
    ⟨List.perm_insertionSort _ _, List.sorted_insertionSort _ _⟩, rfl⟩

/-- The grouped rows of `evs11`: eleven labels, every transaction count 1,
so every reordering is a valid `ORDER BY TXs DESC` output. -/
def rowsTie : List ProjRow := projRows (windowEvents evs11 100)

/-- An all-time snapshot result of `evs11` under the identity tie order. -/
def allTimeTie : List ProjRow := rowsTie.take 10

/-- An engagement result of `evs11` under the reversed tie order. -/
def engageTie : List EngageRow :=
  load_top_projects_engagement_with evs11 100 ((rowsTie.reverse.take 10).map (·.label))

/-- Counterexample to C10: on `evs11` all eleven window labels tie at one
transaction each, so the 10th rank is decided purely by the unspecified tie
order; the identity order keeps label 0 in the snapshot while the reversed
order drops it from the engagement series, and both are valid executions of
their respective queries.  The two charts then display different sets. -/
theorem donut_bars_labels_counterexample :
    IsTopProjectsAllTime evs11 100 allTimeTie ∧
    IsTopProjectsEngagement evs11 100 engageTie ∧
    (0 : ℕ) ∈ allTimeTie.map (·.label) ∧
    (0 : ℕ) ∉ engageTie.map (·.label) :=
  ⟨⟨rowsTie, ⟨List.Perm.refl _, by decide⟩, rfl⟩,
   ⟨rowsTie.reverse, ⟨List.reverse_perm _, by decide⟩, rfl⟩,
   by decide, by decide⟩

/-- Claim C10 (amended): both queries select the top 10 labels by
transaction count over the same trailing 30-day window with the same
`token_contract` exclusion, and for any single tie resolution `out` of that
shared ranking, the snapshot's label set equals the label set of the daily
series built from it — every kept label has at least one window row.  The
two queries execute separately, so their label sets can differ only when a
transaction-count tie at the 10th rank is resolved differently across the
two executions. -/
theorem donut_bars_same_label_set_amended (evs : List Ev) (today : ℤ)
    (out : List ProjRow)
    (h : IsSortedByTxnsDesc (projRows (windowEvents evs today)) out) (l : ℕ) :
    l ∈ (out.take 10).map (·.label) ↔
      l ∈ (load_top_projects_engagement_with evs today
            ((out.take 10).map (·.label))).map (·.label) := by
  obtain ⟨hperm, -⟩ := h
  constructor
  · intro hl
    have hl3 : l ∈ (projRows (windowEvents evs today)).map (·.label) := by
      obtain ⟨p, hp, rfl⟩ := List.mem_map.mp hl
      exact List.mem_map.mpr ⟨p, hperm.subset (List.take_subset _ _ hp), rfl⟩
    have hl4 : l ∈ ((windowEvents evs today).map (·.label)).dedup := by
      rw [projRows, List.map_map] at hl3
      simpa [Function.comp_def] using hl3
    obtain ⟨e, he, rfl⟩ := List.mem_map.mp (List.mem_dedup.mp hl4)
    have he2 : e ∈ engagementEventsWith evs today ((out.take 10).map (·.label)) := by
      rw [engagementEventsWith, List.mem_filter]
      exact ⟨he, by simpa using hl⟩
    have hk : (e.block_date, e.label) ∈
        engagementKeysWith evs today ((out.take 10).map (·.label)) := by
      rw [engagementKeysWith]
      exact List.mem_dedup.mpr (List.mem_map.mpr ⟨e, he2, rfl⟩)
    have hk2 : (e.block_date, e.label) ∈ List.insertionSort (fun a b : ℤ × ℕ => a.1 ≤ b.1)
        (engagementKeysWith evs today ((out.take 10).map (·.label))) :=
      (List.mem_insertionSort _).mpr hk
    rw [load_top_projects_engagement_with, List.map_map]
    exact List.mem_map.mpr ⟨(e.block_date, e.label), hk2, rfl⟩
  · intro hl
    rw [load_top_projects_engagement_with, List.map_map] at hl
    obtain ⟨k, hk, rfl⟩ := List.mem_map.mp hl
    have hk2 := (List.mem_insertionSort _).mp hk
    rw [engagementKeysWith] at hk2
    obtain ⟨e, he, hke⟩ := List.mem_map.mp (List.mem_dedup.mp hk2)
    rw [engagementEventsWith, List.mem_filter] at he
    cases hke
    simpa using he.2

/-- Witness for the amended C10 at `evs11` under the identity tie order:
label 0 is kept by the ranking and does appear in the series built from the
same resolution. -/
theorem donut_bars_same_label_set_amended_witness :
    (0 : ℕ) ∈ (load_top_projects_engagement_with evs11 100
        (((projRows (windowEvents evs11 100)).take 10).map (·.label))).map (·.label) :=
  (donut_bars_same_label_set_amended evs11 100 (projRows (windowEvents evs11 100))
    ⟨List.Perm.refl _, by decide⟩ 0).mp (by decide)

end AxelarDash
